import Mathlib

/-
Verification of the wayfinder-game spawn/combat core.

The TypeScript source is shallowly embedded: positions and camera
coordinates are rationals, health values, damage amounts and millisecond
clock values are integers (the spec declares them integral), velocities
and facing directions live in the reals, engine side effects (setVelocity
commands) are returned as explicit `Option` values, and each mutating
method becomes a pure state transition on a structure mirroring the class
fields.  `Math.sqrt` is embedded as `Real.sqrt`; the comparisons the code
performs on square roots are given decidability instances through
algebraic equivalences so that the state transitions stay computable.
-/

namespace Wayfinder

/-- Euclidean length as the source computes it: Math.sqrt (dx*dx + dy*dy),
on rational components. -/
noncomputable def distance (dx dy : ℚ) : ℝ :=
  Real.sqrt ((dx : ℝ) * dx + (dy : ℝ) * dy)

/-- The guard `distance > 0` used by Monster.moveTowardsTarget and
Monster.applyKnockback. -/
def distPos (dx dy : ℚ) : Prop := 0 < distance dx dy

instance (dx dy : ℚ) : Decidable (distPos dx dy) :=
  decidable_of_iff (0 < dx * dx + dy * dy) (by
    unfold distPos distance
    rw [Real.sqrt_pos]
    constructor
    · intro h
      exact_mod_cast h
    · intro h
      exact_mod_cast h)

/-- MonsterConfig from src/unnamed/part_000 (Monster.ts). -/
structure MonsterConfig where
  maxHealth : ℤ
  speed : ℚ
  damage : ℤ
  spriteKey : String
  scale : ℚ
  knockbackForce : ℚ
  attackCooldown : ℤ
  deriving DecidableEq

/-- DEFAULT_GOBLIN_CONFIG from src/src/game/monsters/Goblin.ts. -/
def DEFAULT_GOBLIN_CONFIG : MonsterConfig :=
  { maxHealth := 50
    speed := 80
    damage := 10
    spriteKey := "goblin"
    scale := 1.5
    knockbackForce := 200
    attackCooldown := 1000 }

/-- State of one Monster instance: the class fields of the abstract Monster
class together with the sprite state the class reads and writes (position,
active flag, horizontal flip).  The sprite's velocity is not stored here:
`setVelocity` calls are engine commands, returned explicitly by the
velocity functions below. -/
structure Monster where
  x : ℚ
  y : ℚ
  config : MonsterConfig
  currentHealth : ℤ
  lastAttackTime : ℤ
  isAlive : Bool
  spriteActive : Bool
  flipX : Bool
  deriving DecidableEq

namespace Monster

/-- The Monster constructor: health starts at maxHealth, lastAttackTime at 0
(a field initializer, independent of creation time), the monster is alive and
its sprite active. -/
def create (x y : ℚ) (config : MonsterConfig) : Monster :=
  { x := x
    y := y
    config := config
    currentHealth := config.maxHealth
    lastAttackTime := 0
    isAlive := true
    spriteActive := true
    flipX := false }

/-- State part of Monster.moveTowardsTarget: inside the `distance > 0` guard
the sprite flip is set from the sign of dx; outside the guard nothing
happens.  The setVelocity call of the same method is returned by
`moveTowardsTargetVelocity`. -/
def moveTowardsTarget (m : Monster) (tx ty : ℚ) : Monster :=
  let dx := tx - m.x
  let dy := ty - m.y
  if distPos dx dy then { m with flipX := decide (dx < 0) } else m

/-- The setVelocity command issued by Monster.moveTowardsTarget:
`some ((dx / distance) * speed, (dy / distance) * speed)` inside the
`distance > 0` guard, `none` (no engine call) otherwise. -/
noncomputable def moveTowardsTargetVelocity (m : Monster) (tx ty : ℚ) :
    Option (ℝ × ℝ) :=
  let dx := tx - m.x
  let dy := ty - m.y
  if distPos dx dy then
    some (((dx : ℝ) / distance dx dy) * (m.config.speed : ℝ),
          ((dy : ℝ) / distance dx dy) * (m.config.speed : ℝ))
  else none

/-- The setVelocity command issued by Monster.applyKnockback (the method's
only effect): direction from target to self scaled by knockbackForce,
guarded by `distance > 0`. -/
noncomputable def applyKnockback (m : Monster) (tx ty : ℚ) :
    Option (ℝ × ℝ) :=
  let dx := m.x - tx
  let dy := m.y - ty
  if distPos dx dy then
    some (((dx : ℝ) / distance dx dy) * (m.config.knockbackForce : ℝ),
          ((dy : ℝ) / distance dx dy) * (m.config.knockbackForce : ℝ))
  else none

/-- State part of Monster.die: sets isAlive to false.  The fade-out tween
and the deferred destroy call are rendering-side effects. -/
def die (m : Monster) : Monster :=
  { m with isAlive := false }

/-- State part of Monster.takeDamage: no-op when not alive; otherwise
subtract the amount from currentHealth (the tint flash is rendering, the
knockback is the `applyKnockback` command) and die when health drops to
zero or below. -/
def takeDamage (m : Monster) (amount : ℤ) : Monster :=
  if !m.isAlive then m
  else
    let m2 := { m with currentHealth := m.currentHealth - amount }
    if m2.currentHealth ≤ 0 then m2.die else m2

/-- Monster.canDealDamage: returns true and stamps lastAttackTime when the
cooldown has elapsed, otherwise returns false without touching state. -/
def canDealDamage (m : Monster) (time : ℤ) : Monster × Bool :=
  if time - m.lastAttackTime ≥ m.config.attackCooldown then
    ({ m with lastAttackTime := time }, true)
  else (m, false)

/-- State part of Monster.update: guarded by isAlive and sprite.active, then
moveTowardsTarget. -/
def update (m : Monster) (tx ty : ℚ) : Monster :=
  if !m.isAlive || !m.spriteActive then m else m.moveTowardsTarget tx ty

/-- Monster.getDamage. -/
def getDamage (m : Monster) : ℤ := m.config.damage

/-- Monster.getIsAlive. -/
def getIsAlive (m : Monster) : Bool := m.isAlive

/-- Monster.destroy: marks dead and destroys the sprite. -/
def destroy (m : Monster) : Monster :=
  { m with isAlive := false, spriteActive := false }

end Monster

/-- One client-visible operation on a Monster, for reasoning about arbitrary
operation sequences. -/
inductive MonsterOp where
  | takeDamage (amount : ℤ)
  | update (tx ty : ℚ)
  | canDealDamage (time : ℤ)
  | destroy
  deriving DecidableEq

/-- Apply one operation to a monster's state. -/
def applyOp (m : Monster) : MonsterOp → Monster
  | .takeDamage a => m.takeDamage a
  | .update tx ty => m.update tx ty
  | .canDealDamage t => (m.canDealDamage t).1
  | .destroy => m.destroy

/-- Run a sequence of operations from a starting state. -/
def runOps (m : Monster) (ops : List MonsterOp) : Monster :=
  ops.foldl applyOp m

/-- An operation carries a nonnegative damage amount (damage values in this
game are nonnegative quantities; every other operation is unrestricted). -/
def nonnegDamage : MonsterOp → Prop
  | .takeDamage a => 0 ≤ a
  | _ => True

instance : (op : MonsterOp) → Decidable (nonnegDamage op)
  | .takeDamage a => inferInstanceAs (Decidable (0 ≤ a))
  | .update _ _ => inferInstanceAs (Decidable True)
  | .canDealDamage _ => inferInstanceAs (Decidable True)
  | .destroy => inferInstanceAs (Decidable True)

/-- JS Math.atan2 (y, x), embedded as the argument of the complex number
x + y i (both have range (-pi, pi] and the same quadrant conventions). -/
noncomputable def atan2 (y x : ℝ) : ℝ := Complex.arg ⟨x, y⟩

/-- Phaser.Math.DegToRad. -/
noncomputable def degToRad (d : ℝ) : ℝ := d * (Real.pi / 180)

/-- AttackConfig from src/src/game/attacks/AxeHackAttack.ts (Attack.ts part). -/
structure AttackConfig where
  damage : ℤ
  interval : ℤ
  duration : ℤ
  scale : ℚ
  spriteKey : String
  offsetDistance : ℝ

/-- AxeHackConfig: AttackConfig plus the swing parameters. -/
structure AxeHackConfig extends AttackConfig where
  swingArc : ℝ
  swingSpeed : ℝ

/-- DEFAULT_AXE_HACK_CONFIG from src/src/game/attacks/AxeHackAttack.ts. -/
noncomputable def DEFAULT_AXE_HACK_CONFIG : AxeHackConfig :=
  { damage := 25
    interval := 2000
    duration := 300
    scale := 2
    spriteKey := "slash"
    offsetDistance := 40
    swingArc := 90
    swingSpeed := 200 }

/-- One slash sprite created by AxeHackAttack.execute.  playerX and playerY
are ghost fields recording the player position read at creation, so that
placement can be stated about every instance in a run. -/
structure SlashInstance where
  x : ℝ
  y : ℝ
  rotation : ℝ
  active : Bool
  playerX : ℝ
  playerY : ℝ

/-- State of one Attack instance: the class fields of the abstract Attack
class (lastAttackTime, currentDirection, activeAttacks). -/
structure AttackState where
  lastAttackTime : ℤ
  currentDirection : ℝ × ℝ
  activeAttacks : List SlashInstance

namespace Attack

/-- The Attack constructor: lastAttackTime is the field initializer 0
(independent of creation time), currentDirection the default facing right
(1, 0), no active attacks. -/
def create : AttackState :=
  { lastAttackTime := 0
    currentDirection := (1, 0)
    activeAttacks := [] }

open Classical in
/-- Attack.updateDirection: when the velocity is nonzero, normalize it and
store it as currentDirection; otherwise keep the previous facing. -/
noncomputable def updateDirection (s : AttackState) (velocityX velocityY : ℝ) :
    AttackState :=
  if velocityX ≠ 0 ∨ velocityY ≠ 0 then
    let length := Real.sqrt (velocityX * velocityX + velocityY * velocityY)
    { s with currentDirection := (velocityX / length, velocityY / length) }
  else s

/-- AxeHackAttack.execute: create a slash sprite at the player position
offset by currentDirection times offsetDistance, rotated to the swing start
angle, and push it onto activeAttacks.  The swing tween and fade-out are
rendering effects; the deferred removal is modeled by `expireInstance`. -/
noncomputable def execute (cfg : AxeHackConfig) (s : AttackState) (px py : ℝ) :
    AttackState :=
  let offsetX := s.currentDirection.1 * cfg.offsetDistance
  let offsetY := s.currentDirection.2 * cfg.offsetDistance
  let baseRotation := atan2 s.currentDirection.2 s.currentDirection.1
  let halfArc := degToRad (cfg.swingArc / 2)
  let startAngle := baseRotation - halfArc
  let slash : SlashInstance :=
    { x := px + offsetX
      y := py + offsetY
      rotation := startAngle
      active := true
      playerX := px
      playerY := py }
  { s with activeAttacks := s.activeAttacks ++ [slash] }

/-- Attack.update: when the interval has elapsed since lastAttackTime,
execute the attack and stamp lastAttackTime. -/
noncomputable def update (cfg : AxeHackConfig) (s : AttackState) (time : ℤ)
    (px py : ℝ) : AttackState :=
  if time - s.lastAttackTime ≥ cfg.interval then
    { execute cfg s px py with lastAttackTime := time }
  else s

/-- The callback registered by Attack.destroyAttackAfterDuration: after the
configured duration the slash is spliced out of activeAttacks. -/
def expireInstance (s : AttackState) (idx : Nat) : AttackState :=
  { s with activeAttacks := s.activeAttacks.eraseIdx idx }

end Attack

/-- One operation on an Attack during a run of the game loop. -/
inductive AttackOp where
  | updateDirection (vx vy : ℝ)
  | update (time : ℤ) (px py : ℝ)
  | expire (idx : Nat)

/-- Apply one attack operation. -/
noncomputable def applyAttackOp (cfg : AxeHackConfig) (s : AttackState) :
    AttackOp → AttackState
  | .updateDirection vx vy => Attack.updateDirection s vx vy
  | .update t px py => Attack.update cfg s t px py
  | .expire idx => Attack.expireInstance s idx

/-- Run a sequence of attack operations. -/
noncomputable def runAttackOps (cfg : AxeHackConfig) (s : AttackState)
    (ops : List AttackOp) : AttackState :=
  ops.foldl (applyAttackOp cfg) s

/-- The operation is not an updateDirection call with nonzero velocity. -/
def zeroVelocity : AttackOp → Prop
  | .updateDirection vx vy => vx = 0 ∧ vy = 0
  | _ => True

/-- Invariant for C10: the attack still faces right, and every live effect
instance sits at its creation-time player position offset by
offsetDistance in the positive-x direction. -/
def rightFacingPlaced (cfg : AxeHackConfig) (s : AttackState) : Prop :=
  s.currentDirection = (1, 0) ∧
  ∀ inst ∈ s.activeAttacks,
    inst.x = inst.playerX + cfg.offsetDistance ∧ inst.y = inst.playerY

/-- SpawnEvent from src/src/game/spawning/SpawnManager.ts. -/
structure SpawnEvent where
  monsterType : String
  count : Nat
  deriving DecidableEq

/-- SpawnWave: delay in ms after the previous wave (or schedule start). -/
structure SpawnWave where
  delay : Nat
  spawns : List SpawnEvent
  deriving DecidableEq

/-- SpawnSchedule: waves plus the loop flag and optional loop delay. -/
structure SpawnSchedule where
  waves : List SpawnWave
  loop : Bool
  loopDelay : Option Nat
  deriving DecidableEq

/-- The wave executions produced by startSchedule and the executeNextWave
timer chain, as (execution time, wave index) pairs: from clock time t and
wave index i, wave i executes at t + its delay and the chain continues with
the next index; past the last wave a looping schedule re-enters at index 0
after loopDelay (the source defaults a missing loopDelay to 0) and a
non-looping one stops.  Fuel bounds the number of timer callbacks. -/
def scheduleRun (sched : SpawnSchedule) : Nat → Nat → Nat → List (Nat × Nat)
  | 0, _, _ => []
  | fuel + 1, t, i =>
    match sched.waves[i]? with
    | some w =>
        (t + w.delay, i) :: scheduleRun sched fuel (t + w.delay) (i + 1)
    | none =>
        if sched.loop then scheduleRun sched fuel (t + sched.loopDelay.getD 0) 0
        else []

/-- Camera viewport rectangle in world coordinates (scroll offset plus
visible size), as read from scene.cameras.main. -/
structure CameraRect where
  scrollX : ℚ
  scrollY : ℚ
  width : ℚ
  height : ℚ

/-- The spawn-placement fields of SpawnManager: world size from the
constructor, spawnPadding initialized to 100. -/
structure SpawnManagerCfg where
  worldWidth : ℚ
  worldHeight : ℚ
  spawnPadding : ℚ

/-- The SpawnManager constructor's placement-relevant state. -/
def SpawnManager.create (worldWidth worldHeight : ℚ) : SpawnManagerCfg :=
  { worldWidth := worldWidth, worldHeight := worldHeight, spawnPadding := 100 }

/-- SpawnManager.getRandomSpawnPosition.  `side` is the value returned by
Phaser.Math.Between(0, 3) (the switch default makes anything other than
0, 1, 2 behave like case 3), and `rand lo hi` is the value returned by the
Phaser.Math.Between(lo, hi) call for the coordinate along the side. -/
def getRandomSpawnPosition (sm : SpawnManagerCfg) (cam : CameraRect)
    (side : Nat) (rand : ℚ → ℚ → ℚ) : ℚ × ℚ :=
  let left := cam.scrollX - sm.spawnPadding
  let right := cam.scrollX + cam.width + sm.spawnPadding
  let top := cam.scrollY - sm.spawnPadding
  let bottom := cam.scrollY + cam.height + sm.spawnPadding
  match side with
  | 0 => (rand (max 0 left) (min sm.worldWidth right), max 0 top)
  | 1 => (min sm.worldWidth right, rand (max 0 top) (min sm.worldHeight bottom))
  | 2 => (rand (max 0 left) (min sm.worldWidth right), min sm.worldHeight bottom)
  | _ => (max 0 left, rand (max 0 top) (min sm.worldHeight bottom))

/-- The random oracle models Phaser.Math.Between: the result lies within
the bounds whenever they are ordered. -/
def randInRange (rand : ℚ → ℚ → ℚ) : Prop :=
  ∀ lo hi, lo ≤ hi → lo ≤ rand lo hi ∧ rand lo hi ≤ hi

/-- The position lies in the closed world rectangle. -/
def inWorldBounds (sm : SpawnManagerCfg) (p : ℚ × ℚ) : Prop :=
  0 ≤ p.1 ∧ p.1 ≤ sm.worldWidth ∧ 0 ≤ p.2 ∧ p.2 ≤ sm.worldHeight

/-- The position lies in the closed unpadded camera rectangle. -/
def inCameraRect (cam : CameraRect) (p : ℚ × ℚ) : Prop :=
  cam.scrollX ≤ p.1 ∧ p.1 ≤ cam.scrollX + cam.width ∧
  cam.scrollY ≤ p.2 ∧ p.2 ≤ cam.scrollY + cam.height

/-- The position lies strictly inside the unpadded camera rectangle. -/
def insideCameraRect (cam : CameraRect) (p : ℚ × ℚ) : Prop :=
  cam.scrollX < p.1 ∧ p.1 < cam.scrollX + cam.width ∧
  cam.scrollY < p.2 ∧ p.2 < cam.scrollY + cam.height

/-- The camera rectangle expanded by the spawn padding covers the world. -/
def paddedCamCoversWorld (sm : SpawnManagerCfg) (cam : CameraRect) : Prop :=
  cam.scrollX - sm.spawnPadding ≤ 0 ∧
  sm.worldWidth ≤ cam.scrollX + cam.width + sm.spawnPadding ∧
  cam.scrollY - sm.spawnPadding ≤ 0 ∧
  sm.worldHeight ≤ cam.scrollY + cam.height + sm.spawnPadding

/-- Claim C4 exactly as stated, for a given spawn manager: for every camera
rectangle, side and in-range random choice, the spawn position is inside
the world, and outside the (closed) unpadded camera rectangle whenever the
padded camera rectangle does not already cover the world. -/
def spawnPlacementClaim (sm : SpawnManagerCfg) : Prop :=
  ∀ (cam : CameraRect) (side : Nat) (rand : ℚ → ℚ → ℚ), randInRange rand →
    inWorldBounds sm (getRandomSpawnPosition sm cam side rand) ∧
    (¬ paddedCamCoversWorld sm cam →
      ¬ inCameraRect cam (getRandomSpawnPosition sm cam side rand))

/-- RepeatingSpawnConfig from SpawnManager.ts. -/
structure RepeatingSpawnConfig where
  monsterType : String
  interval : ℤ
  count : Nat
  deriving DecidableEq

/-- A Phaser repeating timer event as registered by addRepeatingSpawn:
fires every `delay` ms, its callback spawning `count` monsters of the
configured type per firing. -/
structure TimerEvent where
  delay : ℤ
  count : Nat
  monsterType : String
  deriving DecidableEq

/-- The repeating-spawn state of SpawnManager: the key-to-timer Map, plus a
ghost log of every timer destroyed (cancelled) so far. -/
structure RepeatingSpawnsState where
  repeatingSpawns : String → Option TimerEvent
  cancelled : List TimerEvent

/-- A fresh SpawnManager: no repeating spawns, nothing cancelled. -/
def RepeatingSpawnsState.empty : RepeatingSpawnsState :=
  { repeatingSpawns := fun _ => none, cancelled := [] }

/-- The timer addRepeatingSpawn registers for a config. -/
def mkRepeatingTimer (config : RepeatingSpawnConfig) : TimerEvent :=
  { delay := config.interval
    count := config.count
    monsterType := config.monsterType }

/-- SpawnManager.removeRepeatingSpawn: when a timer is registered under the
id, destroy it (recorded in the cancelled log) and delete the Map entry;
otherwise do nothing. -/
def removeRepeatingSpawn (st : RepeatingSpawnsState) (id : String) :
    RepeatingSpawnsState :=
  match st.repeatingSpawns id with
  | some timer =>
      { repeatingSpawns := fun k => if k = id then none else st.repeatingSpawns k
        cancelled := st.cancelled ++ [timer] }
  | none => st

/-- SpawnManager.addRepeatingSpawn: remove any existing spawn under the
same id, then register a fresh timer under the id. -/
def addRepeatingSpawn (st : RepeatingSpawnsState) (id : String)
    (config : RepeatingSpawnConfig) : RepeatingSpawnsState :=
  let st2 := removeRepeatingSpawn st id
  { st2 with
    repeatingSpawns := fun k =>
      if k = id then some (mkRepeatingTimer config) else st2.repeatingSpawns k }

/-- Monsters spawned when the timer registered under the id fires once (the
callback loops count times over spawnMonster). -/
def monstersPerFiring (st : RepeatingSpawnsState) (id : String) : Nat :=
  match st.repeatingSpawns id with
  | some timer => timer.count
  | none => 0

/-- The fixed hit radius of Game.checkAttackCollisions. -/
def hitRange : ℚ := 40

/-- The proximity test of Game.checkAttackCollisions:
Phaser.Math.Distance.Between(attack.x, attack.y, monster.x, monster.y),
that is the Euclidean distance, compared against hitRange. -/
def withinHitRange (ax ay mx my : ℚ) : Prop :=
  distance (mx - ax) (my - ay) < (hitRange : ℝ)

instance (ax ay mx my : ℚ) : Decidable (withinHitRange ax ay mx my) :=
  decidable_of_iff
    ((mx - ax) * (mx - ax) + (my - ay) * (my - ay) < hitRange * hitRange) (by
      unfold withinHitRange distance hitRange
      rw [Real.sqrt_lt' (by norm_num)]
      constructor
      · intro h
        push_cast
        rw [sq]
        exact_mod_cast h
      · intro h
        rw [sq] at h
        exact_mod_cast h)

/-- One attack sprite as seen by checkAttackCollisions: position, active
flag, the "id" data entry (never written anywhere in this code base), and
the keys written into the sprite data store by setData(hitKey, true). -/
structure AttackSprite where
  x : ℚ
  y : ℚ
  active : Bool
  idData : Option ℚ
  hitData : List (ℚ × ℚ)
  deriving DecidableEq

/-- First component of the hit key: getData("id") || attackSprite.x, where
the JS or-operator falls through to the sprite's x on the falsy values
undefined and 0. -/
def hitKeyFst (s : AttackSprite) : ℚ :=
  match s.idData with
  | some v => if v = 0 then s.x else v
  | none => s.x

/-- One attack as seen by the scene loop: its damage value and its active
effect sprites. -/
structure GameAttack where
  damage : ℤ
  activeAttacks : List AttackSprite
  deriving DecidableEq

/-- Innermost loop of Game.checkAttackCollisions: one active attack sprite
tested against each monster in order, skipping dead or sprite-inactive
monsters; on a proximity hit whose key is not yet in the sprite data, the
key is recorded and the monster damaged, threading both mutations. -/
def processMonsters (damage : ℤ) (sprite : AttackSprite) :
    List Monster → AttackSprite × List Monster
  | [] => (sprite, [])
  | m :: rest =>
    if m.getIsAlive && m.spriteActive then
      if withinHitRange sprite.x sprite.y m.x m.y then
        let key := (hitKeyFst sprite, m.x)
        if key ∈ sprite.hitData then
          let res := processMonsters damage sprite rest
          (res.1, m :: res.2)
        else
          let sprite2 := { sprite with hitData := key :: sprite.hitData }
          let m2 := m.takeDamage damage
          let res := processMonsters damage sprite2 rest
          (res.1, m2 :: res.2)
      else
        let res := processMonsters damage sprite rest
        (res.1, m :: res.2)
    else
      let res := processMonsters damage sprite rest
      (res.1, m :: res.2)

/-- Middle loop of Game.checkAttackCollisions: each sprite of one attack in
order, skipping inactive sprites, threading the monster list. -/
def processSprites (damage : ℤ) :
    List AttackSprite → List Monster → List AttackSprite × List Monster
  | [], monsters => ([], monsters)
  | s :: rest, monsters =>
    if s.active then
      let r1 := processMonsters damage s monsters
      let r2 := processSprites damage rest r1.2
      (r1.1 :: r2.1, r2.2)
    else
      let r := processSprites damage rest monsters
      (s :: r.1, r.2)

/-- Game.checkAttackCollisions: every attack, every active sprite, every
live monster, in source iteration order with all mutations threaded. -/
def checkAttackCollisions :
    List GameAttack → List Monster → List GameAttack × List Monster
  | [], monsters => ([], monsters)
  | a :: rest, monsters =>
    let r1 := processSprites a.damage a.activeAttacks monsters
    let r2 := checkAttackCollisions rest r1.2
    ({ a with activeAttacks := r1.1 } :: r2.1, r2.2)

-- ===== Theorems =====

theorem distPos_iff (dx dy : ℚ) : distPos dx dy ↔ 0 < dx * dx + dy * dy := by
  unfold distPos distance
  rw [Real.sqrt_pos]
  constructor
  · intro h
    exact_mod_cast h
  · intro h
    exact_mod_cast h

theorem applyOp_health_le (m : Monster) (op : MonsterOp) (h : nonnegDamage op) :
    (applyOp m op).currentHealth ≤ m.currentHealth := by
  cases op with
  | takeDamage a =>
      simp only [nonnegDamage] at h
      simp only [applyOp, Monster.takeDamage, Monster.die]
      split
      · exact le_refl _
      · split <;> · simp only []; linarith
  | update tx ty =>
      simp only [applyOp, Monster.update, Monster.moveTowardsTarget]
      split
      · exact le_refl _
      · split <;> exact le_refl _
  | canDealDamage t =>
      simp only [applyOp, Monster.canDealDamage]
      split <;> exact le_refl _
  | destroy => exact le_refl _

theorem applyOp_alive_mono (m : Monster) (op : MonsterOp) :
    (applyOp m op).isAlive = true → m.isAlive = true := by
  cases op with
  | takeDamage a =>
      simp only [applyOp, Monster.takeDamage, Monster.die]
      split
      · exact fun h => h
      · next hAlive =>
          intro _
          simpa using hAlive
  | update tx ty =>
      simp only [applyOp, Monster.update, Monster.moveTowardsTarget]
      split
      · exact fun h => h
      · split <;> exact fun h => h
  | canDealDamage t =>
      simp only [applyOp, Monster.canDealDamage]
      split <;> exact fun h => h
  | destroy =>
      simp [applyOp, Monster.destroy]

theorem dead_takeDamage_noop (m : Monster) (a : ℤ) (h : m.isAlive = false) :
    m.takeDamage a = m := by
  simp [Monster.takeDamage, h]

/-- C5: over any operation sequence with nonnegative damage amounts, health
never increases, the alive flag never goes back from false to true (so it
changes true to false at most once), and takeDamage on a dead monster is a
complete no-op. -/
theorem monster_lifecycle_invariants (m : Monster) (ops : List MonsterOp)
    (h : ∀ op ∈ ops, nonnegDamage op) :
    (runOps m ops).currentHealth ≤ m.currentHealth ∧
    ((runOps m ops).isAlive = true → m.isAlive = true) ∧
    (∀ a, m.isAlive = false → m.takeDamage a = m) := by
  refine ⟨?_, ?_, fun a hdead => dead_takeDamage_noop m a hdead⟩
  · induction ops generalizing m with
    | nil => simp [runOps]
    | cons op rest ih =>
        have hop : nonnegDamage op := h op (by simp)
        have hrest : ∀ o ∈ rest, nonnegDamage o := fun o ho => h o (by simp [ho])
        calc (runOps m (op :: rest)).currentHealth
            = (runOps (applyOp m op) rest).currentHealth := by simp [runOps]
          _ ≤ (applyOp m op).currentHealth := ih (applyOp m op) hrest
          _ ≤ m.currentHealth := applyOp_health_le m op hop
  · induction ops generalizing m with
    | nil => simp [runOps]
    | cons op rest ih =>
        intro hfin
        have hrest : ∀ o ∈ rest, nonnegDamage o := fun o ho => h o (by simp [ho])
        have : (runOps (applyOp m op) rest).isAlive = true := by
          simpa [runOps] using hfin
        exact applyOp_alive_mono m op (ih (applyOp m op) hrest this)

/-- Witness for C5 at a concrete monster and operation sequence. -/
theorem monster_lifecycle_invariants_witness :
    (∀ op ∈ [MonsterOp.takeDamage 20, MonsterOp.update 5 7,
              MonsterOp.canDealDamage 500, MonsterOp.destroy], nonnegDamage op) ∧
    ((runOps (Monster.create 0 0 DEFAULT_GOBLIN_CONFIG)
        [MonsterOp.takeDamage 20, MonsterOp.update 5 7,
         MonsterOp.canDealDamage 500, MonsterOp.destroy]).currentHealth ≤
      (Monster.create 0 0 DEFAULT_GOBLIN_CONFIG).currentHealth ∧
     ((runOps (Monster.create 0 0 DEFAULT_GOBLIN_CONFIG)
        [MonsterOp.takeDamage 20, MonsterOp.update 5 7,
         MonsterOp.canDealDamage 500, MonsterOp.destroy]).isAlive = true →
       (Monster.create 0 0 DEFAULT_GOBLIN_CONFIG).isAlive = true) ∧
     (∀ a, (Monster.create 0 0 DEFAULT_GOBLIN_CONFIG).isAlive = false →
       (Monster.create 0 0 DEFAULT_GOBLIN_CONFIG).takeDamage a =
         Monster.create 0 0 DEFAULT_GOBLIN_CONFIG)) :=
  ⟨by decide,
   monster_lifecycle_invariants (Monster.create 0 0 DEFAULT_GOBLIN_CONFIG)
     [MonsterOp.takeDamage 20, MonsterOp.update 5 7,
      MonsterOp.canDealDamage 500, MonsterOp.destroy] (by decide)⟩

/-- C6: a goblin-configured entity with maxHealth 50 hit three times for 20:
health 30 and alive, then health 10 and alive, then health minus 10 and
dead — exactly two damaged-but-alive states, death on the third hit. -/
theorem goblin_three_hit_scenario :
    (((Monster.create 0 0 DEFAULT_GOBLIN_CONFIG).takeDamage 20).currentHealth = 30 ∧
      ((Monster.create 0 0 DEFAULT_GOBLIN_CONFIG).takeDamage 20).isAlive = true) ∧
    ((((Monster.create 0 0 DEFAULT_GOBLIN_CONFIG).takeDamage 20).takeDamage 20).currentHealth = 10 ∧
      (((Monster.create 0 0 DEFAULT_GOBLIN_CONFIG).takeDamage 20).takeDamage 20).isAlive = true) ∧
    (((((Monster.create 0 0 DEFAULT_GOBLIN_CONFIG).takeDamage 20).takeDamage 20).takeDamage 20).currentHealth = -10 ∧
      ((((Monster.create 0 0 DEFAULT_GOBLIN_CONFIG).takeDamage 20).takeDamage 20).takeDamage 20).isAlive = false) := by
  decide

/-- C2: canDealDamage returns true and stamps lastAttackTime exactly when the
cooldown has elapsed, otherwise changes nothing; and two consecutive calls
closer together than the cooldown return true at most once. -/
theorem canDealDamage_cooldown_spec (m : Monster) (t t1 t2 : ℤ)
    (h : t2 - t1 < m.config.attackCooldown) :
    ((m.canDealDamage t).2 = true ↔ m.config.attackCooldown ≤ t - m.lastAttackTime) ∧
    ((m.canDealDamage t).2 = true →
      (m.canDealDamage t).1 = { m with lastAttackTime := t }) ∧
    ((m.canDealDamage t).2 = false → (m.canDealDamage t).1 = m) ∧
    ¬((m.canDealDamage t1).2 = true ∧
      (((m.canDealDamage t1).1).canDealDamage t2).2 = true) := by
  refine ⟨?_, ?_, ?_, ?_⟩
  · unfold Monster.canDealDamage
    split
    · next hc => simpa using hc
    · next hc => simpa using hc
  · unfold Monster.canDealDamage
    split
    · intro _; rfl
    · intro hfalse; simp at hfalse
  · unfold Monster.canDealDamage
    split
    · intro htrue; simp at htrue
    · intro _; rfl
  · rintro ⟨h1, h2⟩
    unfold Monster.canDealDamage at h1 h2
    by_cases hc1 : t1 - m.lastAttackTime ≥ m.config.attackCooldown
    · rw [if_pos hc1] at h1 h2
      simp only [] at h2
      by_cases hc2 : t2 - t1 ≥ m.config.attackCooldown
      · linarith
      · rw [if_neg hc2] at h2
        simp at h2
    · rw [if_neg hc1] at h1
      simp at h1

/-- Witness for C2 at a concrete monster and times. -/
theorem canDealDamage_cooldown_spec_witness :
    ((500 : ℤ) - 0 < (Monster.create 0 0 DEFAULT_GOBLIN_CONFIG).config.attackCooldown) ∧
    ((((Monster.create 0 0 DEFAULT_GOBLIN_CONFIG).canDealDamage 1000).2 = true ↔
        (Monster.create 0 0 DEFAULT_GOBLIN_CONFIG).config.attackCooldown ≤
          1000 - (Monster.create 0 0 DEFAULT_GOBLIN_CONFIG).lastAttackTime) ∧
      (((Monster.create 0 0 DEFAULT_GOBLIN_CONFIG).canDealDamage 1000).2 = true →
        ((Monster.create 0 0 DEFAULT_GOBLIN_CONFIG).canDealDamage 1000).1 =
          { Monster.create 0 0 DEFAULT_GOBLIN_CONFIG with lastAttackTime := 1000 }) ∧
      (((Monster.create 0 0 DEFAULT_GOBLIN_CONFIG).canDealDamage 1000).2 = false →
        ((Monster.create 0 0 DEFAULT_GOBLIN_CONFIG).canDealDamage 1000).1 =
          Monster.create 0 0 DEFAULT_GOBLIN_CONFIG) ∧
      ¬(((Monster.create 0 0 DEFAULT_GOBLIN_CONFIG).canDealDamage 0).2 = true ∧
        ((((Monster.create 0 0 DEFAULT_GOBLIN_CONFIG).canDealDamage 0).1).canDealDamage 500).2 = true)) :=
  ⟨by decide,
   canDealDamage_cooldown_spec (Monster.create 0 0 DEFAULT_GOBLIN_CONFIG)
     1000 0 500 (by decide)⟩

/-- C8: when the target position coincides with the monster's position, the
movement step issues no setVelocity command, the knockback computation
issues no setVelocity command, and the movement step leaves the state
unchanged; the zero-length direction is guarded, no division happens. -/
theorem coincident_target_velocity_noop (m : Monster) (tx ty : ℚ)
    (hx : m.x = tx) (hy : m.y = ty) :
    m.moveTowardsTargetVelocity tx ty = none ∧
    m.applyKnockback tx ty = none ∧
    m.moveTowardsTarget tx ty = m := by
  have hzero : ¬ distPos 0 0 := by
    rw [distPos_iff]; norm_num
  subst hx; subst hy
  refine ⟨?_, ?_, ?_⟩
  · unfold Monster.moveTowardsTargetVelocity
    simp only [sub_self]
    exact if_neg hzero
  · unfold Monster.applyKnockback
    simp only [sub_self]
    exact if_neg hzero
  · unfold Monster.moveTowardsTarget
    simp only [sub_self]
    exact if_neg hzero

/-- Witness for C8 at a concrete monster standing exactly on its target. -/
theorem coincident_target_velocity_noop_witness :
    ((Monster.create 5 7 DEFAULT_GOBLIN_CONFIG).x = 5 ∧
      (Monster.create 5 7 DEFAULT_GOBLIN_CONFIG).y = 7) ∧
    ((Monster.create 5 7 DEFAULT_GOBLIN_CONFIG).moveTowardsTargetVelocity 5 7 = none ∧
      (Monster.create 5 7 DEFAULT_GOBLIN_CONFIG).applyKnockback 5 7 = none ∧
      (Monster.create 5 7 DEFAULT_GOBLIN_CONFIG).moveTowardsTarget 5 7 =
        Monster.create 5 7 DEFAULT_GOBLIN_CONFIG) :=
  ⟨⟨rfl, rfl⟩,
   coincident_target_velocity_noop (Monster.create 5 7 DEFAULT_GOBLIN_CONFIG) 5 7 rfl rfl⟩

/-- C9: cooldown clocks start at the simulation epoch, not at creation: a
fresh monster's lastAttackTime is 0 and its first canDealDamage(t)
succeeds iff t is at least attackCooldown; a fresh attack's lastAttackTime
is 0 and its first update(t) fires (appends exactly one effect instance)
iff t is at least the interval. -/
theorem cooldown_epoch_initialization (x y : ℚ) (mcfg : MonsterConfig)
    (t : ℤ) (acfg : AxeHackConfig) (px py : ℝ) :
    (Monster.create x y mcfg).lastAttackTime = 0 ∧
    (((Monster.create x y mcfg).canDealDamage t).2 = true ↔
      mcfg.attackCooldown ≤ t) ∧
    Attack.create.lastAttackTime = 0 ∧
    ((Attack.update acfg Attack.create t px py).activeAttacks.length = 1 ↔
      acfg.interval ≤ t) ∧
    ((Attack.update acfg Attack.create t px py).activeAttacks.length = 0 ↔
      ¬ acfg.interval ≤ t) := by
  have hm0 : (Monster.create x y mcfg).lastAttackTime = 0 := rfl
  have hmc : (Monster.create x y mcfg).config.attackCooldown =
      mcfg.attackCooldown := rfl
  have ha0 : Attack.create.lastAttackTime = 0 := rfl
  refine ⟨hm0, ?_, ha0, ?_, ?_⟩
  · unfold Monster.canDealDamage
    rw [hm0, hmc]
    split_ifs with h
    · constructor
      · intro _; omega
      · intro _; rfl
    · constructor
      · intro hh; exact absurd hh (by simp)
      · intro hle; exact absurd hle (by omega)
  · unfold Attack.update
    rw [ha0]
    split_ifs with h
    · constructor
      · intro _; omega
      · intro _; rfl
    · constructor
      · intro hh; exact absurd hh zero_ne_one
      · intro hle; exact absurd hle (by omega)
  · unfold Attack.update
    rw [ha0]
    split_ifs with h
    · constructor
      · intro hh; exact absurd hh one_ne_zero
      · intro hn; exact absurd (show acfg.interval ≤ t by omega) hn
    · constructor
      · intro _; omega
      · intro _; rfl

theorem updateDirection_zero (s : AttackState) :
    Attack.updateDirection s 0 0 = s := by
  unfold Attack.updateDirection
  simp

theorem update_preserves_direction (cfg : AxeHackConfig) (s : AttackState)
    (t : ℤ) (px py : ℝ) :
    (Attack.update cfg s t px py).currentDirection = s.currentDirection := by
  unfold Attack.update Attack.execute
  split <;> rfl

theorem applyAttackOp_preserves_rightFacing (cfg : AxeHackConfig)
    (s : AttackState) (op : AttackOp) (hz : zeroVelocity op)
    (h : rightFacingPlaced cfg s) :
    rightFacingPlaced cfg (applyAttackOp cfg s op) := by
  obtain ⟨hdir, hinst⟩ := h
  cases op with
  | updateDirection vx vy =>
      obtain ⟨hx, hy⟩ := hz
      subst hx; subst hy
      simpa [applyAttackOp, updateDirection_zero] using
        (⟨hdir, hinst⟩ : rightFacingPlaced cfg s)
  | update t px py =>
      constructor
      · show (Attack.update cfg s t px py).currentDirection = (1, 0)
        rw [update_preserves_direction]; exact hdir
      · intro inst hins
        simp only [applyAttackOp, Attack.update, Attack.execute] at hins
        split at hins
        · simp only [List.mem_append, List.mem_singleton] at hins
          rcases hins with hold | hnew
          · exact hinst inst hold
          · subst hnew
            constructor
            · show px + s.currentDirection.1 * cfg.offsetDistance =
                px + cfg.offsetDistance
              rw [hdir]; norm_num
            · show py + s.currentDirection.2 * cfg.offsetDistance = py
              rw [hdir]; norm_num
        · exact hinst inst hins
  | expire idx =>
      refine ⟨hdir, ?_⟩
      intro inst hins
      exact hinst inst (List.eraseIdx_subset _ idx hins)

theorem runAttackOps_rightFacing (cfg : AxeHackConfig) (ops : List AttackOp)
    (h : ∀ op ∈ ops, zeroVelocity op) (s : AttackState)
    (hs : rightFacingPlaced cfg s) :
    rightFacingPlaced cfg (runAttackOps cfg s ops) := by
  induction ops generalizing s with
  | nil => simpa [runAttackOps] using hs
  | cons op rest ih =>
      have hop : zeroVelocity op := h op (by simp)
      have hrest : ∀ o ∈ rest, zeroVelocity o := fun o ho => h o (by simp [ho])
      have : runAttackOps cfg s (op :: rest) =
          runAttackOps cfg (applyAttackOp cfg s op) rest := by
        simp [runAttackOps]
      rw [this]
      exact ih hrest _ (applyAttackOp_preserves_rightFacing cfg s op hop ⟨hs.1, hs.2⟩)

/-- C10: the facing direction is initialized to the unit vector (1, 0); in
any run whose direction updates all carry zero velocity every fired effect
instance is placed at the creation-time player position offset by
offsetDistance in the positive-x direction; and updateDirection with a
nonzero velocity stores the velocity divided by its Euclidean length,
which has length 1. -/
theorem attack_direction_spec (cfg : AxeHackConfig) (ops : List AttackOp)
    (hops : ∀ op ∈ ops, zeroVelocity op) (s : AttackState) (vx vy : ℝ)
    (hnz : vx ≠ 0 ∨ vy ≠ 0) :
    Attack.create.currentDirection = (1, 0) ∧
    (runAttackOps cfg Attack.create ops).currentDirection = (1, 0) ∧
    (∀ inst ∈ (runAttackOps cfg Attack.create ops).activeAttacks,
        inst.x = inst.playerX + cfg.offsetDistance ∧ inst.y = inst.playerY) ∧
    (Attack.updateDirection s vx vy).currentDirection =
      (vx / Real.sqrt (vx * vx + vy * vy), vy / Real.sqrt (vx * vx + vy * vy)) ∧
    (Attack.updateDirection s vx vy).currentDirection.1 ^ 2 +
      (Attack.updateDirection s vx vy).currentDirection.2 ^ 2 = 1 := by
  have hcreate : rightFacingPlaced cfg Attack.create := by
    constructor
    · rfl
    · intro inst hins
      simp [Attack.create] at hins
  have hrun := runAttackOps_rightFacing cfg ops hops Attack.create hcreate
  have hpos : 0 < vx * vx + vy * vy := by
    rcases hnz with h | h
    · nlinarith [mul_self_pos.mpr h, mul_self_nonneg vy]
    · nlinarith [mul_self_pos.mpr h, mul_self_nonneg vx]
  have hdir : (Attack.updateDirection s vx vy).currentDirection =
      (vx / Real.sqrt (vx * vx + vy * vy), vy / Real.sqrt (vx * vx + vy * vy)) := by
    unfold Attack.updateDirection
    rw [if_pos hnz]
  refine ⟨rfl, hrun.1, hrun.2, hdir, ?_⟩
  rw [hdir]
  have hL2 : Real.sqrt (vx * vx + vy * vy) ^ 2 = vx * vx + vy * vy :=
    Real.sq_sqrt hpos.le
  simp only []
  rw [div_pow, div_pow, div_add_div_same, hL2, pow_two, pow_two]
  exact div_self (ne_of_gt hpos)

/-- Witness for C10 at a concrete run and a concrete nonzero velocity. -/
theorem attack_direction_spec_witness :
    (∀ op ∈ [AttackOp.updateDirection 0 0, AttackOp.update 2000 3 4,
             AttackOp.expire 0], zeroVelocity op) ∧
    ((1 : ℝ) ≠ 0 ∨ (0 : ℝ) ≠ 0) ∧
    (Attack.create.currentDirection = (1, 0) ∧
     (runAttackOps DEFAULT_AXE_HACK_CONFIG Attack.create
        [AttackOp.updateDirection 0 0, AttackOp.update 2000 3 4,
         AttackOp.expire 0]).currentDirection = (1, 0) ∧
     (∀ inst ∈ (runAttackOps DEFAULT_AXE_HACK_CONFIG Attack.create
        [AttackOp.updateDirection 0 0, AttackOp.update 2000 3 4,
         AttackOp.expire 0]).activeAttacks,
        inst.x = inst.playerX + DEFAULT_AXE_HACK_CONFIG.offsetDistance ∧
        inst.y = inst.playerY) ∧
     (Attack.updateDirection Attack.create 1 0).currentDirection =
       ((1 : ℝ) / Real.sqrt (1 * 1 + 0 * 0), (0 : ℝ) / Real.sqrt (1 * 1 + 0 * 0)) ∧
     (Attack.updateDirection Attack.create 1 0).currentDirection.1 ^ 2 +
       (Attack.updateDirection Attack.create 1 0).currentDirection.2 ^ 2 = 1) :=
  ⟨by simp [zeroVelocity], Or.inl one_ne_zero,
   attack_direction_spec DEFAULT_AXE_HACK_CONFIG
     [AttackOp.updateDirection 0 0, AttackOp.update 2000 3 4, AttackOp.expire 0]
     (by simp [zeroVelocity]) Attack.create 1 0 (Or.inl one_ne_zero)⟩

theorem scheduleRun_time_lower (sched : SpawnSchedule) :
    ∀ (fuel t i : Nat), ∀ e ∈ scheduleRun sched fuel t i, t ≤ e.1 := by
  intro fuel
  induction fuel with
  | zero =>
      intro t i e he
      simp [scheduleRun] at he
  | succ n ih =>
      intro t i e he
      rw [scheduleRun] at he
      cases hw : sched.waves[i]? with
      | some w =>
          rw [hw] at he
          rcases List.mem_cons.mp he with h | hmem
          · subst h; exact Nat.le_add_right t w.delay
          · exact le_trans (Nat.le_add_right t w.delay)
              (ih (t + w.delay) (i + 1) e hmem)
      | none =>
          rw [hw] at he
          by_cases hl : sched.loop = true
          · rw [if_pos hl] at he
            exact le_trans (Nat.le_add_right t _) (ih _ 0 e he)
          · rw [if_neg hl] at he
            simp at he

/-- C3: a scripted schedule with wave delays 0 and 5000, loop true and
loopDelay 15000, run for 25000 ms of simulated time, executes wave 0 at
t = 0, wave 1 at t = 5000, wave 0 again at t = 20000 and wave 1 again at
t = 25000, and at no other times (whatever the waves spawn and however
many further timer callbacks are considered). -/
theorem scripted_schedule_scenario (s0 s1 : List SpawnEvent) (fuel : Nat) :
    (scheduleRun
        { waves := [{ delay := 0, spawns := s0 }, { delay := 5000, spawns := s1 }],
          loop := true, loopDelay := some 15000 } (fuel + 6) 0 0).filter
      (fun e => e.1 ≤ 25000) = [(0, 0), (5000, 1), (20000, 0), (25000, 1)] := by
  have hstep : scheduleRun
      { waves := [{ delay := 0, spawns := s0 }, { delay := 5000, spawns := s1 }],
        loop := true, loopDelay := some 15000 } (fuel + 6) 0 0 =
      (0, 0) :: (5000, 1) :: (20000, 0) :: (25000, 1) ::
        scheduleRun
          { waves := [{ delay := 0, spawns := s0 }, { delay := 5000, spawns := s1 }],
            loop := true, loopDelay := some 15000 } fuel 40000 0 := by
    rw [scheduleRun]
    norm_num
    rw [scheduleRun]
    norm_num
    rw [scheduleRun]
    norm_num
    rw [scheduleRun]
    norm_num
    rw [scheduleRun]
    norm_num
    rw [scheduleRun]
    norm_num
  rw [hstep]
  simp only [List.filter_cons]
  norm_num
  intro a b hmem
  have := scheduleRun_time_lower _ fuel 40000 0 (a, b) hmem
  omega

/-- C7: re-registering a repeating spawn under an existing key cancels
exactly the one prior timer (the destroyed-timer log grows by exactly that
timer) and installs exactly one new timer under the key, whose each firing
spawns exactly config.count monsters rather than a cumulative count; all
other keys are untouched and the operation is total, not an error. -/
theorem addRepeatingSpawn_replaces (st : RepeatingSpawnsState) (id : String)
    (config : RepeatingSpawnConfig) (tOld : TimerEvent)
    (hprev : st.repeatingSpawns id = some tOld) :
    (addRepeatingSpawn st id config).cancelled = st.cancelled ++ [tOld] ∧
    (addRepeatingSpawn st id config).repeatingSpawns id =
      some (mkRepeatingTimer config) ∧
    monstersPerFiring (addRepeatingSpawn st id config) id = config.count ∧
    (∀ k, k ≠ id → (addRepeatingSpawn st id config).repeatingSpawns k =
      st.repeatingSpawns k) := by
  unfold addRepeatingSpawn removeRepeatingSpawn monstersPerFiring
  rw [hprev]
  refine ⟨rfl, ?_, ?_, ?_⟩
  · simp
  · simp [mkRepeatingTimer]
  · intro k hk
    simp [hk]

/-- Witness for C7: the game's "goblins" registration re-registered with a
different config. -/
theorem addRepeatingSpawn_replaces_witness :
    ((addRepeatingSpawn RepeatingSpawnsState.empty "goblins"
        { monsterType := "goblin", interval := 5000, count := 1 }).repeatingSpawns
        "goblins" =
      some (mkRepeatingTimer
        { monsterType := "goblin", interval := 5000, count := 1 })) ∧
    ((addRepeatingSpawn
        (addRepeatingSpawn RepeatingSpawnsState.empty "goblins"
          { monsterType := "goblin", interval := 5000, count := 1 })
        "goblins"
        { monsterType := "goblin", interval := 3000, count := 2 }).cancelled =
      (addRepeatingSpawn RepeatingSpawnsState.empty "goblins"
        { monsterType := "goblin", interval := 5000, count := 1 }).cancelled ++
        [mkRepeatingTimer { monsterType := "goblin", interval := 5000, count := 1 }] ∧
     (addRepeatingSpawn
        (addRepeatingSpawn RepeatingSpawnsState.empty "goblins"
          { monsterType := "goblin", interval := 5000, count := 1 })
        "goblins"
        { monsterType := "goblin", interval := 3000, count := 2 }).repeatingSpawns
        "goblins" =
      some (mkRepeatingTimer
        { monsterType := "goblin", interval := 3000, count := 2 }) ∧
     monstersPerFiring
       (addRepeatingSpawn
         (addRepeatingSpawn RepeatingSpawnsState.empty "goblins"
           { monsterType := "goblin", interval := 5000, count := 1 })
         "goblins"
         { monsterType := "goblin", interval := 3000, count := 2 }) "goblins" = 2 ∧
     (∀ k, k ≠ "goblins" →
       (addRepeatingSpawn
         (addRepeatingSpawn RepeatingSpawnsState.empty "goblins"
           { monsterType := "goblin", interval := 5000, count := 1 })
         "goblins"
         { monsterType := "goblin", interval := 3000, count := 2 }).repeatingSpawns k =
       (addRepeatingSpawn RepeatingSpawnsState.empty "goblins"
         { monsterType := "goblin", interval := 5000, count := 1 }).repeatingSpawns k)) :=
  ⟨rfl,
   addRepeatingSpawn_replaces
     (addRepeatingSpawn RepeatingSpawnsState.empty "goblins"
       { monsterType := "goblin", interval := 5000, count := 1 })
     "goblins" { monsterType := "goblin", interval := 3000, count := 2 }
     (mkRepeatingTimer { monsterType := "goblin", interval := 5000, count := 1 })
     rfl⟩

/-- Counterexample to C4 as stated: in the 3200 by 2400 world, with the
camera at the world's top-left corner (scroll (0,0), viewport 800 by 600,
padded camera far from covering the world), a left-side spawn with the
random coordinate landing at 50 returns position (0, 50), which lies in
the closed unpadded camera rectangle. -/
theorem spawn_placement_claim_false :
    ¬ spawnPlacementClaim (SpawnManager.create 3200 2400) := by
  intro h
  have hrand : randInRange (fun lo hi => if lo + 50 ≤ hi then lo + 50 else lo) := by
    intro lo hi hle
    dsimp only
    split_ifs with h50
    · exact ⟨by linarith, h50⟩
    · exact ⟨le_refl lo, hle⟩
  obtain ⟨-, houtside⟩ :=
    h { scrollX := 0, scrollY := 0, width := 800, height := 600 } 3
      (fun lo hi => if lo + 50 ≤ hi then lo + 50 else lo) hrand
  apply houtside
  · unfold paddedCamCoversWorld SpawnManager.create
    intro hcov
    obtain ⟨-, hw, -, -⟩ := hcov
    norm_num at hw
  · unfold getRandomSpawnPosition SpawnManager.create inCameraRect
    norm_num

/-- C4 amended: with the camera rectangle within world bounds (which the
engine's camera-bounds setup guarantees), every spawn position lies in the
closed world rectangle and is never strictly inside the unpadded camera
rectangle — it can lie exactly on the camera edge when the camera touches
the world boundary, which is what refutes the claim's unconditional
"outside" phrasing. -/
theorem spawn_placement_amended (w h : ℚ) (cam : CameraRect) (side : Nat)
    (rand : ℚ → ℚ → ℚ) (hrand : randInRange rand)
    (hx0 : 0 ≤ cam.scrollX) (hy0 : 0 ≤ cam.scrollY)
    (hwid : 0 ≤ cam.width) (hht : 0 ≤ cam.height)
    (hxw : cam.scrollX + cam.width ≤ w) (hyh : cam.scrollY + cam.height ≤ h) :
    inWorldBounds (SpawnManager.create w h)
      (getRandomSpawnPosition (SpawnManager.create w h) cam side rand) ∧
    ¬ insideCameraRect cam
      (getRandomSpawnPosition (SpawnManager.create w h) cam side rand) := by
  have hw0 : 0 ≤ w := le_trans (by linarith) hxw
  have hh0 : 0 ≤ h := le_trans (by linarith) hyh
  rcases side with _ | _ | _ | side
  · -- case 0: top side
    have hpos : getRandomSpawnPosition (SpawnManager.create w h) cam 0 rand =
        (rand (max 0 (cam.scrollX - 100)) (min w (cam.scrollX + cam.width + 100)),
         max 0 (cam.scrollY - 100)) := rfl
    rw [hpos]
    unfold inWorldBounds insideCameraRect
    dsimp only [SpawnManager.create]
    obtain ⟨hlo, hhi⟩ := hrand (max 0 (cam.scrollX - 100))
      (min w (cam.scrollX + cam.width + 100))
      (max_le (le_min hw0 (by linarith)) (le_min (by linarith) (by linarith)))
    have hy : max 0 (cam.scrollY - 100) ≤ cam.scrollY := max_le hy0 (by linarith)
    constructor
    · exact ⟨le_trans (le_max_left _ _) hlo, le_trans hhi (min_le_left _ _),
        le_max_left _ _, max_le hh0 (by linarith)⟩
    · rintro ⟨-, -, hsy, -⟩
      linarith
  · -- case 1: right side
    have hpos : getRandomSpawnPosition (SpawnManager.create w h) cam 1 rand =
        (min w (cam.scrollX + cam.width + 100),
         rand (max 0 (cam.scrollY - 100)) (min h (cam.scrollY + cam.height + 100))) := rfl
    rw [hpos]
    unfold inWorldBounds insideCameraRect
    dsimp only [SpawnManager.create]
    obtain ⟨hlo, hhi⟩ := hrand (max 0 (cam.scrollY - 100))
      (min h (cam.scrollY + cam.height + 100))
      (max_le (le_min hh0 (by linarith)) (le_min (by linarith) (by linarith)))
    have hx : cam.scrollX + cam.width ≤ min w (cam.scrollX + cam.width + 100) :=
      le_min (by linarith) (by linarith)
    constructor
    · exact ⟨le_min hw0 (by linarith), min_le_left _ _,
        le_trans (le_max_left _ _) hlo, le_trans hhi (min_le_left _ _)⟩
    · rintro ⟨-, hsx, -, -⟩
      linarith
  · -- case 2: bottom side
    have hpos : getRandomSpawnPosition (SpawnManager.create w h) cam 2 rand =
        (rand (max 0 (cam.scrollX - 100)) (min w (cam.scrollX + cam.width + 100)),
         min h (cam.scrollY + cam.height + 100)) := rfl
    rw [hpos]
    unfold inWorldBounds insideCameraRect
    dsimp only [SpawnManager.create]
    obtain ⟨hlo, hhi⟩ := hrand (max 0 (cam.scrollX - 100))
      (min w (cam.scrollX + cam.width + 100))
      (max_le (le_min hw0 (by linarith)) (le_min (by linarith) (by linarith)))
    have hy : cam.scrollY + cam.height ≤ min h (cam.scrollY + cam.height + 100) :=
      le_min (by linarith) (by linarith)
    constructor
    · exact ⟨le_trans (le_max_left _ _) hlo, le_trans hhi (min_le_left _ _),
        le_min hh0 (by linarith), min_le_left _ _⟩
    · rintro ⟨-, -, -, hsy⟩
      linarith
  · -- default: left side (side value 3 or larger)
    have hpos : getRandomSpawnPosition (SpawnManager.create w h) cam
        (side + 1 + 1 + 1) rand =
        (max 0 (cam.scrollX - 100),
         rand (max 0 (cam.scrollY - 100)) (min h (cam.scrollY + cam.height + 100))) := rfl
    rw [hpos]
    unfold inWorldBounds insideCameraRect
    dsimp only [SpawnManager.create]
    obtain ⟨hlo, hhi⟩ := hrand (max 0 (cam.scrollY - 100))
      (min h (cam.scrollY + cam.height + 100))
      (max_le (le_min hh0 (by linarith)) (le_min (by linarith) (by linarith)))
    have hx : max 0 (cam.scrollX - 100) ≤ cam.scrollX := max_le hx0 (by linarith)
    constructor
    · exact ⟨le_max_left _ _, max_le hw0 (by linarith),
        le_trans (le_max_left _ _) hlo, le_trans hhi (min_le_left _ _)⟩
    · rintro ⟨hsx, -, -, -⟩
      linarith

theorem cameraWithinWorldFacts :
    ((0 : ℚ) ≤ 100) ∧ ((0 : ℚ) ≤ 800) ∧ ((0 : ℚ) ≤ 600) ∧
    ((100 : ℚ) + 800 ≤ 3200) ∧ ((100 : ℚ) + 600 ≤ 2400) := by
  norm_num

/-- Witness for the amended C4 at a concrete camera inside the world. -/
theorem spawn_placement_amended_witness :
    randInRange (fun lo _ => lo) ∧
    ((0 : ℚ) ≤ 100 ∧ (0 : ℚ) ≤ 800 ∧ (0 : ℚ) ≤ 600 ∧
      (100 : ℚ) + 800 ≤ 3200 ∧ (100 : ℚ) + 600 ≤ 2400) ∧
    (inWorldBounds (SpawnManager.create 3200 2400)
        (getRandomSpawnPosition (SpawnManager.create 3200 2400)
          { scrollX := 100, scrollY := 100, width := 800, height := 600 } 0
          (fun lo _ => lo)) ∧
      ¬ insideCameraRect
        { scrollX := 100, scrollY := 100, width := 800, height := 600 }
        (getRandomSpawnPosition (SpawnManager.create 3200 2400)
          { scrollX := 100, scrollY := 100, width := 800, height := 600 } 0
          (fun lo _ => lo))) :=
  ⟨fun lo _ hle => ⟨le_refl lo, hle⟩,
   ⟨cameraWithinWorldFacts.1, cameraWithinWorldFacts.2.1,
    cameraWithinWorldFacts.2.2.1, cameraWithinWorldFacts.2.2.2.1,
    cameraWithinWorldFacts.2.2.2.2⟩,
   spawn_placement_amended 3200 2400
     { scrollX := 100, scrollY := 100, width := 800, height := 600 } 0
     (fun lo _ => lo) (fun lo _ hle => ⟨le_refl lo, hle⟩)
     cameraWithinWorldFacts.1 cameraWithinWorldFacts.1
     cameraWithinWorldFacts.2.1 cameraWithinWorldFacts.2.2.1
     cameraWithinWorldFacts.2.2.2.1 cameraWithinWorldFacts.2.2.2.2⟩

theorem withinHitRange_iff (ax ay mx my : ℚ) :
    withinHitRange ax ay mx my ↔
      (mx - ax) * (mx - ax) + (my - ay) * (my - ay) < hitRange * hitRange := by
  unfold withinHitRange distance hitRange
  rw [Real.sqrt_lt' (by norm_num)]
  constructor
  · intro h
    rw [pow_two] at h
    exact_mod_cast h
  · intro h
    rw [pow_two]
    exact_mod_cast h

/-- C1 is violated by the code: the hit key is built from the attack
sprite's and the monster's current x positions, not from stable identities.
Tick 1: an attack instance at (0, 0) with damage 20 hits the goblin at
(10, 0), records key (0, 10) and brings its health from 50 to 30.  The
swing tween then moves the same instance (same sprite, hit data preserved)
to (1, 0).  Tick 2: the key recomputes to (1, 10), which is not in the hit
data, so the same instance damages the same monster again, health 10. -/
theorem attack_instance_double_damage :
    ((checkAttackCollisions
        [{ damage := 20,
           activeAttacks := [{ x := 0, y := 0, active := true, idData := none,
                               hitData := [] }] }]
        [Monster.create 10 0 DEFAULT_GOBLIN_CONFIG]) =
      ([{ damage := 20,
          activeAttacks := [{ x := 0, y := 0, active := true, idData := none,
                              hitData := [(0, 10)] }] }],
       [{ Monster.create 10 0 DEFAULT_GOBLIN_CONFIG with currentHealth := 30 }])) ∧
    ((checkAttackCollisions
        [{ damage := 20,
           activeAttacks := [{ x := 1, y := 0, active := true, idData := none,
                               hitData := [(0, 10)] }] }]
        [{ Monster.create 10 0 DEFAULT_GOBLIN_CONFIG with currentHealth := 30 }]) =
      ([{ damage := 20,
          activeAttacks := [{ x := 1, y := 0, active := true, idData := none,
                              hitData := [(1, 10), (0, 10)] }] }],
       [{ Monster.create 10 0 DEFAULT_GOBLIN_CONFIG with currentHealth := 10 }])) := by
  have hw1 : withinHitRange 0 0 10 0 := by
    rw [withinHitRange_iff]; norm_num [hitRange]
  have hw2 : withinHitRange 1 0 10 0 := by
    rw [withinHitRange_iff]; norm_num [hitRange]
  constructor
  · norm_num [checkAttackCollisions, processSprites, processMonsters,
      Monster.getIsAlive, Monster.create, Monster.takeDamage, Monster.die,
      hitKeyFst, hw1, DEFAULT_GOBLIN_CONFIG]
  · norm_num [checkAttackCollisions, processSprites, processMonsters,
      Monster.getIsAlive, Monster.create, Monster.takeDamage, Monster.die,
      hitKeyFst, hw2, DEFAULT_GOBLIN_CONFIG]

end Wayfinder
